import Mathlib

/-!
Verification development for the racun receipt-ingestion pipeline.

The definitions below are a shallow embedding of the Python source:

* `src/suf_purs/service.py` — the fiscal content parser (`parse_content` with
  its four fixed regular expressions, `get_specifications_request`, `get_dt`,
  `get_meta_info`);
* `src/suf_purs/views.py`   — `processing_qr_url_content`;
* `src/suf_purs/schemas.py` — `QrUrlRequest` host validation, `SellerInfo`,
  `SpecificationItem`, `SpecificationsRequest`, `SpecificationsResponse`;
* `src/bill/views.py`       — `upload_bill`, `get_bill` over the `bill`
  collection;
* `src/image/views.py`      — `upload_image_bytes`, `qr_decode_by_image_bytes`,
  `get_image_name_from_bytes`;
* `src/pipeline/views.py`   — the `processing_by_image` orchestrator.

Bytes are modeled as `List Nat`, the MongoDB collections as Lean lists in
natural (insertion) order, `ObjectId`s as `Nat`, Python `datetime` as a record
of numeric fields, and Python `float` fields (which the pipeline only carries
around, never computes with) as `Rat`.  External capabilities (the md5 digest,
the QR decoder, the two HTTP calls) are parameters of a `World` structure of
deterministic functions, and every pipeline function additionally returns a
`Trace` counting how often each external capability was invoked.
-/

/-- Raw image bytes (`bytes` in the source), modeled as a list of byte values. -/
abbrev Bytes := List Nat

/- ### Character and list-of-characters utilities used by the parser model -/

/-- Numeric value of a digit character (`ord(c) - ord('0')`). -/
def charVal (c : Char) : Nat := c.toNat - 48

/-- ASCII digit test, as used by the `\d` regex class. -/
def isDigitB (c : Char) : Bool := decide (48 ≤ c.toNat ∧ c.toNat ≤ 57)

/-- ASCII whitespace test, as used by the `\s` regex class
(space, tab, newline, carriage return, vertical tab, form feed). -/
def isSpaceB (c : Char) : Bool :=
  decide (c.toNat = 32 ∨ c.toNat = 9 ∨ c.toNat = 10 ∨ c.toNat = 13 ∨
          c.toNat = 11 ∨ c.toNat = 12)

/-- If `pre` is a leading segment of `cs`, return the remainder. -/
def dropLead? (pre cs : List Char) : Option (List Char) :=
  match pre, cs with
  | [], rest => some rest
  | _ :: _, [] => none
  | p :: ps, c :: rest => if c = p then dropLead? ps rest else none

/-- `re.search` driver: try the matcher at every start position, leftmost
success wins.  All matchers below start with a literal, so trying every
suffix is exactly Python's scan. -/
def reFirst {α : Type} (m : List Char → Option α) : List Char → Option α
  | [] => none
  | c :: rest =>
    match m (c :: rest) with
    | some r => some r
    | none => reFirst m rest

/-- Scan for the first occurrence of `stopper`; return the characters before
it.  This is the semantics of a lazy `(.*?)` capture followed by a literal. -/
def scanCapture (stopper : List Char) : List Char → List Char → Option (List Char)
  | cs, acc =>
    match dropLead? stopper cs with
    | some _ => some acc.reverse
    | none =>
      match cs with
      | [] => none
      | c :: rest => scanCapture stopper rest (c :: acc)

/-- Split on the exact separator `\r\n`, left to right, Python
`str.split("\r\n")` semantics (no collapsing of empty pieces). -/
def splitCRLFAux : List Char → List Char → List (List Char)
  | [], acc => [acc.reverse]
  | '\r' :: '\n' :: rest, acc => acc.reverse :: splitCRLFAux rest []
  | c :: rest, acc => splitCRLFAux rest (c :: acc)

/-- Python `str.strip()` restricted to ASCII whitespace. -/
def pyStrip (cs : List Char) : List Char :=
  ((cs.dropWhile isSpaceB).reverse.dropWhile isSpaceB).reverse

/- ### The four fixed patterns of `patterns_map` (src/suf_purs/service.py) -/

/-- Literal head of the `invoice_number` pattern
`viewModel\.InvoiceNumber\('([^']+)'\)`. -/
def invoiceLit : List Char := "viewModel.InvoiceNumber('".toList

/-- Literal head of the `token` pattern `viewModel\.Token\('([^']+)'\)`. -/
def tokenLit : List Char := "viewModel.Token('".toList

/-- Matcher for `LIT([^']+)'\)` at one start position: after the literal, the
greedy nonempty run of non-quote characters must be followed by `')`. -/
def quotedCaptureAt (pre : List Char) (cs : List Char) : Option String :=
  match dropLead? pre cs with
  | none => none
  | some r1 =>
    let run := r1.takeWhile (fun c => c ≠ '\'')
    if run.isEmpty then none
    else
      match r1.drop run.length with
      | '\'' :: ')' :: _ => some (String.mk run)
      | _ => none

/-- `parse_content(patterns_map["invoice_number"], content)`:
first match of `viewModel\.InvoiceNumber\('([^']+)'\)` in the page. -/
def parse_invoice_number (content : String) : Option String :=
  reFirst (quotedCaptureAt invoiceLit) content.toList

/-- `parse_content(patterns_map["token"], content)`:
first match of `viewModel\.Token\('([^']+)'\)` in the page. -/
def parse_token (content : String) : Option String :=
  reFirst (quotedCaptureAt tokenLit) content.toList

/-- Literal head of the `bill_datetime` pattern. -/
def sdcLit : List Char := "<span id=\"sdcDateTimeLabel\">".toList

/-- Literal tail of the `bill_datetime` pattern. -/
def spanCloseLit : List Char := "</span>".toList

/-- Matcher at one position for
`<span id="sdcDateTimeLabel">\s*([\d\.]+ \d{2}:\d{2}:\d{2})\s*</span>`:
the character classes are disjoint from their successors, so the greedy
matches need no backtracking. -/
def dtAt (cs : List Char) : Option String :=
  match dropLead? sdcLit cs with
  | none => none
  | some r1 =>
    let r2 := r1.dropWhile isSpaceB
    let run := r2.takeWhile (fun c => isDigitB c || c = '.')
    if run.isEmpty then none
    else
      match r2.drop run.length with
      | ' ' :: a :: b :: ':' :: c :: d :: ':' :: e :: f :: r3 =>
        if isDigitB a && isDigitB b && isDigitB c && isDigitB d &&
           isDigitB e && isDigitB f then
          match dropLead? spanCloseLit (r3.dropWhile isSpaceB) with
          | some _ =>
            some (String.mk (run ++ ' ' :: a :: b :: ':' :: c :: d :: ':' :: [e, f]))
          | none => none
        else none
      | _ => none

/-- `parse_content(patterns_map["bill_datetime"], content)`. -/
def parse_bill_datetime (content : String) : Option String :=
  reFirst dtAt content.toList

/-- Literal header of the `bill_meta_info` pattern (with its `\r\n`). -/
def metaHeaderLit : List Char :=
  "============ ФИСКАЛНИ РАЧУН ============\r\n".toList

/-- Literal footer of the `bill_meta_info` pattern (with its leading `\r\n`). -/
def metaStopLit : List Char :=
  "\r\n-------------ПРОМЕТ ПРОДАЈА-------------".toList

/-- Matcher at one position for the `bill_meta_info` pattern
`HEADER\r\n(.*?)\r\nFOOTER` under `re.S`: lazy capture up to the first
footer occurrence. -/
def metaAt (cs : List Char) : Option String :=
  match dropLead? metaHeaderLit cs with
  | none => none
  | some r1 =>
    match scanCapture metaStopLit r1 [] with
    | some captured => some (String.mk captured)
    | none => none

/-- `parse_content(patterns_map["bill_meta_info"], content)`. -/
def parse_bill_meta_info (content : String) : Option String :=
  reFirst metaAt content.toList

/- ### Python `datetime.strptime(dt, '%d.%m.%Y. %H:%M:%S')` -/

/-- Python `datetime` value as produced by `strptime` (date and time fields). -/
structure PyDateTime where
  year : Nat
  month : Nat
  day : Nat
  hour : Nat
  minute : Nat
  second : Nat
deriving DecidableEq, Repr

/-- Two-digit-or-one-digit numeric field of CPython `_strptime`.  The two-digit
alternatives of each directive's regex accept exactly the values
`lo2 ≤ v ≤ hi2` (for `%d`: `3[01]|[12]\d|0[1-9]` is `01..31`; for `%m`:
`1[0-2]|0[1-9]` is `01..12`; for `%H`: `2[0-3]|[0-1]\d` is `00..23`; for
`%M`: `[0-5]\d` is `00..59`; for `%S`: `6[0-1]|[0-5]\d` is `00..61`), and the
final one-digit alternative accepts `lo1 ≤ charVal c ≤ hi1`. -/
def pNum2 (lo2 hi2 lo1 hi1 : Nat) : List Char → Option (Nat × List Char)
  | c1 :: c2 :: rest =>
    if isDigitB c1 = true ∧ isDigitB c2 = true ∧
       lo2 ≤ 10 * charVal c1 + charVal c2 ∧ 10 * charVal c1 + charVal c2 ≤ hi2 then
      some (10 * charVal c1 + charVal c2, rest)
    else if isDigitB c1 = true ∧ lo1 ≤ charVal c1 ∧ charVal c1 ≤ hi1 then
      some (charVal c1, c2 :: rest)
    else none
  | [c1] =>
    if isDigitB c1 = true ∧ lo1 ≤ charVal c1 ∧ charVal c1 ≤ hi1 then
      some (charVal c1, [])
    else none
  | [] => none

/-- `%Y` of CPython `_strptime`: exactly four digits. -/
def pYear4 : List Char → Option (Nat × List Char)
  | c1 :: c2 :: c3 :: c4 :: rest =>
    if isDigitB c1 = true ∧ isDigitB c2 = true ∧ isDigitB c3 = true ∧
       isDigitB c4 = true then
      some (1000 * charVal c1 + 100 * charVal c2 + 10 * charVal c3 + charVal c4,
            rest)
    else none
  | _ => none

/-- Expect one literal character. -/
def expectChar (c : Char) : List Char → Option (List Char)
  | x :: rest => if x = c then some rest else none
  | [] => none

/-- `\s+`, the translation CPython `_strptime` applies to whitespace in the
format string: one or more whitespace characters, greedy. -/
def wsPlus : List Char → Option (List Char)
  | c :: rest => if isSpaceB c = true then some (rest.dropWhile isSpaceB) else none
  | [] => none

/-- Gregorian leap-year rule used by Python `datetime`. -/
def isLeapYear (y : Nat) : Bool :=
  decide ((y % 4 = 0 ∧ y % 100 ≠ 0) ∨ y % 400 = 0)

/-- Days in a month, as validated by the Python `datetime` constructor. -/
def daysInMonth (y m : Nat) : Nat :=
  if m = 2 then (if isLeapYear y = true then 29 else 28)
  else if m = 4 ∨ m = 6 ∨ m = 9 ∨ m = 11 then 30
  else 31

/-- The `datetime(...)` constructor: range validation performed by Python after
`_strptime` has matched the text (this is what rejects `31.02` or second 61). -/
def mkDateTime (y m d hh mi ss : Nat) : Option PyDateTime :=
  if 1 ≤ y ∧ y ≤ 9999 ∧ 1 ≤ m ∧ m ≤ 12 ∧ 1 ≤ d ∧ d ≤ daysInMonth y m ∧
     hh ≤ 23 ∧ mi ≤ 59 ∧ ss ≤ 59 then
    some ⟨y, m, d, hh, mi, ss⟩
  else none

/-- `datetime.strptime(s, '%d.%m.%Y. %H:%M:%S')`: the compiled pattern is
`(%d)\.(%m)\.(%Y)\.\s+(%H):(%M):(%S)` matched from the start, with the whole
string required to be consumed ("unconverted data remains" otherwise),
followed by `datetime` range validation. -/
def pyStrptimeDMYHMS (cs : List Char) : Option PyDateTime :=
  match pNum2 1 31 1 9 cs with
  | none => none
  | some (d, r1) =>
    match expectChar '.' r1 with
    | none => none
    | some r2 =>
      match pNum2 1 12 1 9 r2 with
      | none => none
      | some (m, r3) =>
        match expectChar '.' r3 with
        | none => none
        | some r4 =>
          match pYear4 r4 with
          | none => none
          | some (y, r5) =>
            match expectChar '.' r5 with
            | none => none
            | some r6 =>
              match wsPlus r6 with
              | none => none
              | some r7 =>
                match pNum2 0 23 0 9 r7 with
                | none => none
                | some (hh, r8) =>
                  match expectChar ':' r8 with
                  | none => none
                  | some r9 =>
                    match pNum2 0 59 0 9 r9 with
                    | none => none
                    | some (mi, r10) =>
                      match expectChar ':' r10 with
                      | none => none
                      | some r11 =>
                        match pNum2 0 61 0 9 r11 with
                        | none => none
                        | some (ss, r12) =>
                          match r12 with
                          | [] => mkDateTime y m d hh mi ss
                          | _ :: _ => none

/-- Zero-padded two-digit rendering of a number below 100. -/
def pad2 (n : Nat) : List Char := [Nat.digitChar (n / 10), Nat.digitChar (n % 10)]

/-- Zero-padded four-digit rendering of a number below 10000. -/
def pad4 (n : Nat) : List Char :=
  [Nat.digitChar (n / 1000), Nat.digitChar (n / 100 % 10),
   Nat.digitChar (n / 10 % 10), Nat.digitChar (n % 10)]

/-- The text `dd.mm.yyyy. hh:mm:ss` — day, month and year separated by periods,
a period after the year, then hour, minute, second. -/
def renderDateText (d m y hh mi ss : Nat) : String :=
  String.mk (pad2 d ++ '.' :: (pad2 m ++ '.' :: (pad4 y ++ '.' :: ' ' ::
    (pad2 hh ++ ':' :: (pad2 mi ++ ':' :: pad2 ss)))))

/- ### Schemas (src/suf_purs/schemas.py, src/bill/schemas.py) -/

/-- `SellerInfo`: the seven positional seller-metadata fields, in declaration
order `number, company, store, address, district, cashier, esir`. -/
structure SellerInfo where
  number : String
  company : String
  store : String
  address : String
  district : String
  cashier : String
  esir : String
deriving DecidableEq, Repr

/-- `SpecificationItem`: one structured line item.  The Python `float` fields
are carried, never computed with, and are modeled as `Rat`. -/
structure SpecificationItem where
  gtin : String
  name : String
  quantity : Rat
  total : Rat
  unitPrice : Rat
  label : String
  labelRate : Rat
  taxBaseAmount : Rat
  vatAmount : Rat
deriving DecidableEq, Repr

/-- `SpecificationsRequest`: the identifiers extracted from the verification
page and posted to the specifications endpoint. -/
structure SpecificationsRequest where
  invoiceNumber : String
  token : String
deriving DecidableEq, Repr

/-- `SpecificationsResponse`: timestamp, line items, seller info. -/
structure SpecificationsResponse where
  dt : PyDateTime
  items : List SpecificationItem
  seller_info : SellerInfo
deriving DecidableEq, Repr

/-- A parsed absolute URL.  Shallow model of a pydantic `HttpUrl` value for
the URL forms this pipeline handles: `scheme://host` followed by an optional
path/query; port, userinfo and IDN normalization are omitted since no claim
depends on them. -/
structure HttpUrl where
  scheme : String
  host : String
  path : String
deriving DecidableEq, Repr

/-- `str(url)` for a stored `HttpUrl`. -/
def urlStr (u : HttpUrl) : String := u.scheme ++ "://" ++ u.host ++ u.path

/-- Scan for the first occurrence of `sep`; return the characters before it
and the characters after it. -/
def splitOnce (sep : List Char) : List Char → List Char → Option (List Char × List Char)
  | cs, acc =>
    match dropLead? sep cs with
    | some rest => some (acc.reverse, rest)
    | none =>
      match cs with
      | [] => none
      | c :: rest => splitOnce sep rest (c :: acc)

/-- Pydantic `HttpUrl` parsing, shallowly: an absolute `http`/`https` URL with
a nonempty host; everything from the first `/` after the host is the path. -/
def parseHttpUrl (s : String) : Option HttpUrl :=
  match splitOnce "://".toList s.toList [] with
  | none => none
  | some (schemeCs, rest) =>
    if String.mk schemeCs = "http" ∨ String.mk schemeCs = "https" then
      let hostCs := rest.takeWhile (fun c => c ≠ '/')
      if hostCs.isEmpty then none
      else some ⟨String.mk schemeCs, String.mk hostCs,
                 String.mk (rest.drop hostCs.length)⟩
    else none

/- ### Error taxonomy -/

/-- Errors raised by the fiscal content parser: `ParseContentError` (caught and
mapped to HTTP 422 by `processing_qr_url_content`) versus the `ValueError`
raised by `strptime` on a text that matched the extraction regex but not the
date format (uncaught by the `except ParseContentError` handler). -/
inductive ParseErr where
  | parseContent (msg : String)
  | valueError
deriving DecidableEq, Repr

/-- A request-terminating failure: every failure in this code surfaces as a
FastAPI `HTTPException(status_code, detail)`; an exception no handler catches
surfaces as HTTP 500. -/
inductive PipeError where
  | http (status : Nat) (detail : String)
deriving DecidableEq, Repr

instance {ε α : Type} [DecidableEq ε] [DecidableEq α] :
    DecidableEq (Except ε α) := fun x y =>
  match x, y with
  | .error a, .error b =>
    if h : a = b then .isTrue (by rw [h])
    else .isFalse (fun he => h (by cases he; rfl))
  | .ok a, .ok b =>
    if h : a = b then .isTrue (by rw [h])
    else .isFalse (fun he => h (by cases he; rfl))
  | .error _, .ok _ => .isFalse (fun he => Except.noConfusion he)
  | .ok _, .error _ => .isFalse (fun he => Except.noConfusion he)

/-- How an error escaping the parsing `try` block of
`processing_qr_url_content` reaches the caller: `ParseContentError` is caught
and re-raised as `HTTPException(422, str(e))`; a `ValueError` is unhandled. -/
def parseErrToHttp : ParseErr → PipeError
  | .parseContent msg => .http 422 msg
  | .valueError => .http 500 "Internal Server Error"

/- ### Fiscal content parser (src/suf_purs/service.py) -/

/-- `get_specifications_request`: extract `invoice_number` first (failing with
`ParseContentError("pattern 'invoice_number' not found")`), then `token`
(failing with `ParseContentError("pattern 'token' not found")`). -/
def get_specifications_request (content : String) :
    Except ParseErr SpecificationsRequest :=
  match parse_invoice_number content with
  | none => .error (.parseContent "pattern 'invoice_number' not found")
  | some invoice_number =>
    match parse_token content with
    | none => .error (.parseContent "pattern 'token' not found")
    | some token => .ok ⟨invoice_number, token⟩

/-- `get_dt`: extract the `sdcDateTimeLabel` text (failing with
`ParseContentError("pattern 'bill_datetime' not found")`), then parse it with
`datetime.strptime(dt, '%d.%m.%Y. %H:%M:%S')` (failing with `ValueError`). -/
def get_dt (content : String) : Except ParseErr PyDateTime :=
  match parse_bill_datetime content with
  | none => .error (.parseContent "pattern 'bill_datetime' not found")
  | some dtText =>
    match pyStrptimeDMYHMS dtText.toList with
    | some dt => .ok dt
    | none => .error .valueError

/-- `get_meta_info`: extract the delimited metadata block (failing with
`ParseContentError("pattern 'bill_meta_info' not found")`), split it on
`\r\n` and strip every line. -/
def get_meta_info (content : String) : Except ParseErr (List String) :=
  match parse_bill_meta_info content with
  | none => .error (.parseContent "pattern 'bill_meta_info' not found")
  | some block =>
    .ok ((splitCRLFAux block.toList []).map (fun l => String.mk (pyStrip l)))

/-- `SellerInfo(**dict(zip(fields, meta_info)))` where `fields` is the seven
`SellerInfo` annotation keys in order: `zip` pairs the i-th line with the i-th
field and silently drops lines beyond the seventh; pydantic rejects the call
(missing required fields) when fewer than seven lines are supplied. -/
def mkSellerInfo : List String → Option SellerInfo
  | n :: c :: st :: a :: d :: ca :: e :: _ => some ⟨n, c, st, a, d, ca, e⟩
  | _ => none

/- ### Store model (src/bill/views.py, src/image/views.py) -/

/-- One document of the `bill` collection, with its Mongo `_id` modeled as a
`Nat`. -/
structure BillDoc where
  id : Nat
  image_name : String
  qr_url : String
  user_name : String
  dt : PyDateTime
  items : List SpecificationItem
  seller_info : SellerInfo
  category : String
deriving DecidableEq, Repr

/-- One document of the `image` collection. -/
structure ImageDoc where
  image_name : String
  user_name : String
  binary : Bytes
deriving DecidableEq, Repr

/-- The database: both collections in natural (insertion) order, plus the next
fresh `ObjectId`. -/
structure DbState where
  bills : List BillDoc
  images : List ImageDoc
  nextId : Nat
deriving DecidableEq, Repr

/-- A query filter contributed by an optional string parameter of `get_bill`:
the source adds the clause only `if value:`, so `None` and the empty string
both mean "no constraint". -/
def optStrFilter : Option String → String → Bool
  | none, _ => true
  | some v, field => if v = "" then true else field = v

/-- The `_id` clause of `get_bill`, added only when `bill_id` is truthy. -/
def optNatFilter : Option Nat → Nat → Bool
  | none, _ => true
  | some i, field => field = i

/-- The conjunction of clauses `get_bill` builds from its present parameters. -/
def billQuery (bill_id : Option Nat) (user_name image_name qr_url : Option String)
    (b : BillDoc) : Bool :=
  optNatFilter bill_id b.id && optStrFilter user_name b.user_name &&
    optStrFilter image_name b.image_name && optStrFilter qr_url b.qr_url

/-- `get_bill` (GET /bill/one): `find_one` with the constructed query —
the first document of the collection satisfying it. -/
def get_bill (bill_id : Option Nat) (user_name image_name qr_url : Option String)
    (s : DbState) : Option BillDoc :=
  s.bills.find? (billQuery bill_id user_name image_name qr_url)

/-- `UploadBillRequest`: the payload of `upload_bill` (`category` defaults to
"Other" at construction sites that do not copy it from an existing record). -/
structure UploadBillRequest where
  qr_url : String
  image_name : String
  dt : PyDateTime
  items : List SpecificationItem
  seller_info : SellerInfo
  category : String
deriving DecidableEq, Repr

/-- `UploadBillRequest(**bill.model_dump())`: the field-for-field projection of
a stored document used by the two clone paths (extra keys `bill_id` and
`user_name` of the dump are ignored by the pydantic constructor). -/
def cloneReq (b : BillDoc) : UploadBillRequest :=
  ⟨b.qr_url, b.image_name, b.dt, b.items, b.seller_info, b.category⟩

/-- The document `upload_bill` writes: the request fields plus the owning
`user_name`, under the given `_id`. -/
def mkBillDoc (id : Nat) (req : UploadBillRequest) (u : String) : BillDoc :=
  ⟨id, req.image_name, req.qr_url, u, req.dt, req.items, req.seller_info,
   req.category⟩

/-- The `replace_one` filter of `upload_bill`: the conjunction
`image_name ∧ qr_url ∧ user_name` over the document being written. -/
def replFilter (req : UploadBillRequest) (u : String) (b : BillDoc) : Bool :=
  b.image_name = req.image_name && b.qr_url = req.qr_url && b.user_name = u

/-- Mongo `replace_one` on a match: the first matching document's fields are
replaced, its `_id` kept. -/
def replaceFirstKeepId (p : BillDoc → Bool) (req : UploadBillRequest)
    (u : String) : List BillDoc → List BillDoc
  | [] => []
  | b :: rest =>
    if p b then mkBillDoc b.id req u :: rest
    else b :: replaceFirstKeepId p req u rest

/-- The state after `upload_bill` inserts a fresh document. -/
def insertState (s : DbState) (req : UploadBillRequest) (u : String) : DbState :=
  ⟨s.bills ++ [mkBillDoc s.nextId req u], s.images, s.nextId + 1⟩

/-- `upload_bill` (POST /bill/upload): `replace_one(filter, document,
upsert=True)` keyed on `(image_name, qr_url, user_name)`; the response carries
`upserted_id` exactly when a fresh document was inserted. -/
def upload_bill (req : UploadBillRequest) (u : String) (s : DbState) :
    Option Nat × DbState :=
  match s.bills.find? (replFilter req u) with
  | some _ =>
    (none, ⟨replaceFirstKeepId (replFilter req u) req u s.bills, s.images, s.nextId⟩)
  | none => (some s.nextId, insertState s req u)

/-- `upload_image_bytes`: insert the raw bytes into the `image` collection
keyed by `(image_name, user_name)` unless such a document already exists. -/
def upload_image_bytes (image_bytes : Bytes) (image_name user_name : String)
    (s : DbState) : DbState :=
  match s.images.find?
      (fun d => d.image_name = image_name && d.user_name = user_name) with
  | some _ => s
  | none =>
    ⟨s.bills, s.images ++ [⟨image_name, user_name, image_bytes⟩], s.nextId⟩

/-- Well-formedness of the store: every stored `_id` is below the fresh-id
counter (Mongo `ObjectId`s are unique; this is how the model states it). -/
def WF (s : DbState) : Prop :=
  s.bills.all (fun b => b.id < s.nextId) = true

/- ### External world and invocation trace -/

/-- The JSON body of the specifications POST response as consumed by
`processing_qr_url_content`: `data.get("success", False)` and
`data.get("items", [])`, both keys optional, items already structured. -/
structure PostBody where
  success : Option Bool
  items : Option (List SpecificationItem)
deriving DecidableEq, Repr

/-- The external capabilities, as deterministic functions: `hash` is
`get_image_name_from_bytes` (the md5 hexdigest), `decode` is
`process_qr_url_1` (decoded text, or the `QRCodeDecodeError` signal),
`getPage` and `postSpec` are the two outbound HTTP calls, each returning a
status code and a body. -/
structure World where
  hash : Bytes → String
  decode : Bytes → Except Unit String
  getPage : String → Nat × String
  postSpec : SpecificationsRequest → Nat × PostBody

/-- How many times each external capability was invoked while serving one
request. -/
structure Trace where
  decodeCalls : Nat
  parseCalls : Nat
  getCalls : Nat
  postCalls : Nat
deriving DecidableEq, Repr

/-- httpx `raise_for_status`: raises unless the status code is 2xx. -/
def is2xx (c : Nat) : Bool := decide (200 ≤ c ∧ c < 300)

/-- `qr_decode_by_image_bytes` (src/image/views.py): a `QRCodeDecodeError`
becomes `HTTPException(422, "Failed to decode QR code: ...")`; a decoded
payload is wrapped in `QrUrlResponse`, whose `HttpUrl` field rejects a
syntactically invalid URL — that pydantic `ValidationError` is caught by the
generic handler and becomes `HTTPException(500, ...)`. -/
def qr_decode_by_image_bytes (w : World) (image_bytes : Bytes) :
    Except PipeError HttpUrl :=
  match w.decode image_bytes with
  | .error _ => .error (.http 422 "Failed to decode QR code: QRCodeDecodeError")
  | .ok payload =>
    match parseHttpUrl payload with
    | some url => .ok url
    | none => .error (.http 500 "Internal server error during QR code processing")

/-- `processing_qr_url_content` (src/suf_purs/views.py): GET the verification
page (non-2xx → that status code), run the three extraction rules in order
(`ParseContentError` → 422, `strptime` `ValueError` unhandled → 500), POST the
identifiers to the specifications endpoint (non-2xx → that status code), take
the items only when `success` is present and true, and build the response —
whose `SellerInfo` construction fails (unhandled → 500) when the metadata
block yielded fewer than seven lines. -/
def processing_qr_url_content (w : World) (qur : HttpUrl) :
    Except PipeError SpecificationsResponse × Trace :=
  match w.getPage (urlStr qur) with
  | (status, content) =>
    if is2xx status = true then
      match get_specifications_request content with
      | .error e => (.error (parseErrToHttp e), ⟨0, 1, 1, 0⟩)
      | .ok sr =>
        match get_dt content with
        | .error e => (.error (parseErrToHttp e), ⟨0, 1, 1, 0⟩)
        | .ok dt =>
          match get_meta_info content with
          | .error e => (.error (parseErrToHttp e), ⟨0, 1, 1, 0⟩)
          | .ok meta_info =>
            match w.postSpec sr with
            | (pstatus, body) =>
              if is2xx pstatus = true then
                match mkSellerInfo meta_info with
                | none => (.error (.http 500 "Internal Server Error"), ⟨0, 1, 1, 1⟩)
                | some si =>
                  (.ok ⟨dt,
                        if body.success.getD false then body.items.getD [] else [],
                        si⟩,
                   ⟨0, 1, 1, 1⟩)
              else
                (.error (.http pstatus
                   "POST https://suf.purs.gov.rs/specifications request error"),
                 ⟨0, 1, 1, 1⟩)
    else
      (.error (.http status ("GET " ++ urlStr qur ++ " request error")), ⟨0, 0, 1, 0⟩)

/-- The `UploadBillRequest` built at S6 from the decoded URL and the parsed
specifications response; `category` takes its default "Other". -/
def newBillReq (image_name : String) (url : HttpUrl)
    (spec : SpecificationsResponse) : UploadBillRequest :=
  ⟨urlStr url, image_name, spec.dt, spec.items, spec.seller_info, "Other"⟩

/-- `processing_by_image` (POST /processing, src/pipeline/views.py): the
ingestion orchestrator.  S0 hash; S1 lookup `(content_hash, user)`; S2 lookup
`content_hash` alone with S2a `(url, user)` re-check and S2b clone-upsert;
S3 QR decode (on failure: persist the raw image, then re-raise) and host
validation of the decoded URL; S4 lookup `(url, user)`; S5 lookup `url` alone
with clone-upsert; S6 full resolution and upsert.  The clone and S6 paths
re-read the written record by `upserted_id`. -/
def processing_by_image (w : World) (s : DbState) (image_bytes : Bytes)
    (user_name : String) :
    Except PipeError (Option BillDoc) × DbState × Trace :=
  match get_bill none (some user_name) (some (w.hash image_bytes)) none s with
  | some user_bill => (.ok (some user_bill), s, ⟨0, 0, 0, 0⟩)
  | none =>
    match get_bill none none (some (w.hash image_bytes)) none s with
    | some bill =>
      match get_bill none (some user_name) none (some bill.qr_url) s with
      | some user_bill => (.ok (some user_bill), s, ⟨0, 0, 0, 0⟩)
      | none =>
        match upload_bill (cloneReq bill) user_name s with
        | (upserted_id, s1) =>
          (.ok (get_bill upserted_id none none none s1), s1, ⟨0, 0, 0, 0⟩)
    | none =>
      match qr_decode_by_image_bytes w image_bytes with
      | .error e =>
        (.error e,
         upload_image_bytes image_bytes (w.hash image_bytes) user_name s,
         ⟨1, 0, 0, 0⟩)
      | .ok url =>
        if url.host = "suf.purs.gov.rs" then
          match get_bill none (some user_name) none (some (urlStr url)) s with
          | some user_bill => (.ok (some user_bill), s, ⟨1, 0, 0, 0⟩)
          | none =>
            match get_bill none none none (some (urlStr url)) s with
            | some bill =>
              match upload_bill (cloneReq bill) user_name s with
              | (upserted_id, s1) =>
                (.ok (get_bill upserted_id none none none s1), s1, ⟨1, 0, 0, 0⟩)
            | none =>
              match processing_qr_url_content w url with
              | (.error e, t) =>
                (.error e, s, ⟨1, t.parseCalls, t.getCalls, t.postCalls⟩)
              | (.ok spec, t) =>
                match upload_bill (newBillReq (w.hash image_bytes) url spec)
                    user_name s with
                | (upserted_id, s1) =>
                  (.ok (get_bill upserted_id none none none s1), s1,
                   ⟨1, t.parseCalls, t.getCalls, t.postCalls⟩)
        else
          (.error (.http 422 "Invalid QR URL"), s, ⟨1, 0, 0, 0⟩)

/- ### Helper lemmas about the store model -/

theorem find?_append_left_none {α : Type} {p : α → Bool} {l1 l2 : List α}
    (h : l1.find? p = none) : (l1 ++ l2).find? p = l2.find? p := by
  induction l1 with
  | nil => simp
  | cons a l ih =>
    rw [List.find?_cons] at h
    rw [List.cons_append, List.find?_cons]
    cases hpa : p a with
    | true => rw [hpa] at h; simp at h
    | false => rw [hpa] at h; exact ih h

theorem find?_singleton {α : Type} {p : α → Bool} {d : α} :
    [d].find? p = if p d then some d else none := by
  rw [List.find?_cons]
  cases hpd : p d <;> simp

theorem optStrFilter_some_iff (v f : String) :
    optStrFilter (some v) f = true ↔ v = "" ∨ f = v := by
  by_cases hv : v = "" <;> simp [optStrFilter, hv]

theorem optStrFilter_none_eq (f : String) : optStrFilter none f = true := rfl

theorem optNatFilter_some_iff (i n : Nat) :
    optNatFilter (some i) n = true ↔ n = i := by
  simp [optNatFilter]

theorem billQuery_true_iff (a : Option Nat) (bu bi bq : Option String)
    (b : BillDoc) :
    billQuery a bu bi bq b = true ↔
      optNatFilter a b.id = true ∧ optStrFilter bu b.user_name = true ∧
      optStrFilter bi b.image_name = true ∧ optStrFilter bq b.qr_url = true := by
  simp [billQuery, Bool.and_eq_true, and_assoc]

theorem get_bill_none_iff (a : Option Nat) (bu bi bq : Option String)
    (s : DbState) :
    get_bill a bu bi bq s = none ↔
      ∀ b ∈ s.bills, ¬ billQuery a bu bi bq b = true := by
  simp [get_bill, List.find?_eq_none]

theorem get_bill_append_one (a : Option Nat) (bu bi bq : Option String)
    (s : DbState) (d : BillDoc) (imgs : List ImageDoc) (n : Nat)
    (h : get_bill a bu bi bq s = none) :
    get_bill a bu bi bq ⟨s.bills ++ [d], imgs, n⟩ =
      if billQuery a bu bi bq d then some d else none := by
  unfold get_bill at h ⊢
  rw [find?_append_left_none h, find?_singleton]

theorem upload_bill_insert (req : UploadBillRequest) (u : String) (s : DbState)
    (h : s.bills.find? (replFilter req u) = none) :
    upload_bill req u s = (some s.nextId, insertState s req u) := by
  unfold upload_bill
  rw [h]

theorem WF_ids_lt {s : DbState} (hwf : WF s) :
    ∀ b ∈ s.bills, b.id < s.nextId := by
  intro b hb
  have := (List.all_eq_true).mp hwf b hb
  simpa using this

theorem get_bill_fresh (s : DbState) (req : UploadBillRequest) (u : String)
    (hwf : WF s) :
    get_bill (some s.nextId) none none none (insertState s req u) =
      some (mkBillDoc s.nextId req u) := by
  unfold get_bill insertState
  rw [find?_append_left_none, find?_singleton]
  · simp [billQuery, optNatFilter, optStrFilter, mkBillDoc]
  · rw [List.find?_eq_none]
    intro x hx
    have hlt := WF_ids_lt hwf x hx
    simp [billQuery, optNatFilter, optStrFilter]
    omega

theorem replFilter_true_iff (req : UploadBillRequest) (u : String) (b : BillDoc) :
    replFilter req u b = true ↔
      b.image_name = req.image_name ∧ b.qr_url = req.qr_url ∧ b.user_name = u := by
  simp [replFilter, Bool.and_eq_true, and_assoc]

theorem WF_insert {s : DbState} (req : UploadBillRequest) (u : String)
    (hwf : WF s) : WF (insertState s req u) := by
  unfold WF insertState at *
  rw [List.all_eq_true] at *
  intro b hb
  simp only [List.mem_append, List.mem_singleton] at hb
  rcases hb with hb | hb
  · have := hwf b hb
    simp only [decide_eq_true_eq] at *
    omega
  · subst hb
    simp [mkBillDoc]

/- ### Path lemmas: one per transition of the orchestrator state machine -/

theorem run_S1 {w : World} {s : DbState} {B : Bytes} {u : String} {ub : BillDoc}
    (h1 : get_bill none (some u) (some (w.hash B)) none s = some ub) :
    processing_by_image w s B u = (.ok (some ub), s, ⟨0, 0, 0, 0⟩) := by
  unfold processing_by_image
  simp only [h1]

theorem run_S2a {w : World} {s : DbState} {B : Bytes} {u : String}
    {b ub : BillDoc}
    (h1 : get_bill none (some u) (some (w.hash B)) none s = none)
    (h2 : get_bill none none (some (w.hash B)) none s = some b)
    (h3 : get_bill none (some u) none (some b.qr_url) s = some ub) :
    processing_by_image w s B u = (.ok (some ub), s, ⟨0, 0, 0, 0⟩) := by
  unfold processing_by_image
  simp only [h1, h2, h3]

theorem run_S2b {w : World} {s : DbState} {B : Bytes} {u : String} {b : BillDoc}
    (h1 : get_bill none (some u) (some (w.hash B)) none s = none)
    (h2 : get_bill none none (some (w.hash B)) none s = some b)
    (h3 : get_bill none (some u) none (some b.qr_url) s = none)
    (hrepl : s.bills.find? (replFilter (cloneReq b) u) = none)
    (hwf : WF s) :
    processing_by_image w s B u =
      (.ok (some (mkBillDoc s.nextId (cloneReq b) u)),
       insertState s (cloneReq b) u, ⟨0, 0, 0, 0⟩) := by
  unfold processing_by_image
  simp only [h1, h2, h3, upload_bill_insert _ _ _ hrepl,
    get_bill_fresh s (cloneReq b) u hwf]

theorem run_decode_error {w : World} {s : DbState} {B : Bytes} {u : String}
    {e : PipeError}
    (h1 : get_bill none (some u) (some (w.hash B)) none s = none)
    (h2 : get_bill none none (some (w.hash B)) none s = none)
    (hd : qr_decode_by_image_bytes w B = .error e) :
    processing_by_image w s B u =
      (.error e, upload_image_bytes B (w.hash B) u s, ⟨1, 0, 0, 0⟩) := by
  unfold processing_by_image
  simp only [h1, h2, hd]

theorem run_bad_host {w : World} {s : DbState} {B : Bytes} {u : String}
    {url : HttpUrl}
    (h1 : get_bill none (some u) (some (w.hash B)) none s = none)
    (h2 : get_bill none none (some (w.hash B)) none s = none)
    (hd : qr_decode_by_image_bytes w B = .ok url)
    (hh : ¬ url.host = "suf.purs.gov.rs") :
    processing_by_image w s B u =
      (.error (.http 422 "Invalid QR URL"), s, ⟨1, 0, 0, 0⟩) := by
  unfold processing_by_image
  simp only [h1, h2, hd]
  rw [if_neg hh]

theorem run_S4 {w : World} {s : DbState} {B : Bytes} {u : String}
    {url : HttpUrl} {ub : BillDoc}
    (h1 : get_bill none (some u) (some (w.hash B)) none s = none)
    (h2 : get_bill none none (some (w.hash B)) none s = none)
    (hd : qr_decode_by_image_bytes w B = .ok url)
    (hh : url.host = "suf.purs.gov.rs")
    (h4 : get_bill none (some u) none (some (urlStr url)) s = some ub) :
    processing_by_image w s B u = (.ok (some ub), s, ⟨1, 0, 0, 0⟩) := by
  unfold processing_by_image
  simp only [h1, h2, hd]
  rw [if_pos hh]
  simp only [h4]

theorem run_S5 {w : World} {s : DbState} {B : Bytes} {u : String}
    {url : HttpUrl} {b : BillDoc}
    (h1 : get_bill none (some u) (some (w.hash B)) none s = none)
    (h2 : get_bill none none (some (w.hash B)) none s = none)
    (hd : qr_decode_by_image_bytes w B = .ok url)
    (hh : url.host = "suf.purs.gov.rs")
    (h4 : get_bill none (some u) none (some (urlStr url)) s = none)
    (h5 : get_bill none none none (some (urlStr url)) s = some b)
    (hrepl : s.bills.find? (replFilter (cloneReq b) u) = none)
    (hwf : WF s) :
    processing_by_image w s B u =
      (.ok (some (mkBillDoc s.nextId (cloneReq b) u)),
       insertState s (cloneReq b) u, ⟨1, 0, 0, 0⟩) := by
  unfold processing_by_image
  simp only [h1, h2, hd]
  rw [if_pos hh]
  simp only [h4, h5, upload_bill_insert _ _ _ hrepl,
    get_bill_fresh s (cloneReq b) u hwf]

theorem run_S6_error {w : World} {s : DbState} {B : Bytes} {u : String}
    {url : HttpUrl} {e : PipeError} {t : Trace}
    (h1 : get_bill none (some u) (some (w.hash B)) none s = none)
    (h2 : get_bill none none (some (w.hash B)) none s = none)
    (hd : qr_decode_by_image_bytes w B = .ok url)
    (hh : url.host = "suf.purs.gov.rs")
    (h4 : get_bill none (some u) none (some (urlStr url)) s = none)
    (h5 : get_bill none none none (some (urlStr url)) s = none)
    (hc : processing_qr_url_content w url = (.error e, t)) :
    processing_by_image w s B u =
      (.error e, s, ⟨1, t.parseCalls, t.getCalls, t.postCalls⟩) := by
  unfold processing_by_image
  simp only [h1, h2, hd]
  rw [if_pos hh]
  simp only [h4, h5, hc]

theorem run_S6_ok {w : World} {s : DbState} {B : Bytes} {u : String}
    {url : HttpUrl} {spec : SpecificationsResponse} {t : Trace}
    (h1 : get_bill none (some u) (some (w.hash B)) none s = none)
    (h2 : get_bill none none (some (w.hash B)) none s = none)
    (hd : qr_decode_by_image_bytes w B = .ok url)
    (hh : url.host = "suf.purs.gov.rs")
    (h4 : get_bill none (some u) none (some (urlStr url)) s = none)
    (h5 : get_bill none none none (some (urlStr url)) s = none)
    (hc : processing_qr_url_content w url = (.ok spec, t))
    (hrepl : s.bills.find? (replFilter (newBillReq (w.hash B) url spec) u) = none)
    (hwf : WF s) :
    processing_by_image w s B u =
      (.ok (some (mkBillDoc s.nextId (newBillReq (w.hash B) url spec) u)),
       insertState s (newBillReq (w.hash B) url spec) u,
       ⟨1, t.parseCalls, t.getCalls, t.postCalls⟩) := by
  unfold processing_by_image
  simp only [h1, h2, hd]
  rw [if_pos hh]
  simp only [h4, h5, hc, upload_bill_insert _ _ _ hrepl,
    get_bill_fresh s (newBillReq (w.hash B) url spec) u hwf]

/- ### Lemmas about the strptime model -/

theorem digitChar_digit : ∀ k, k < 10 →
    isDigitB (Nat.digitChar k) = true ∧ charVal (Nat.digitChar k) = k := by
  decide

theorem pNum2_digits (lo2 hi2 lo1 hi1 v : Nat) (hlo : lo2 ≤ v) (hhi : v ≤ hi2)
    (h99 : v ≤ 99) (rest : List Char) :
    pNum2 lo2 hi2 lo1 hi1
      (Nat.digitChar (v / 10) :: Nat.digitChar (v % 10) :: rest) =
      some (v, rest) := by
  obtain ⟨ha1, hb1⟩ := digitChar_digit (v / 10) (by omega)
  obtain ⟨ha2, hb2⟩ := digitChar_digit (v % 10) (by omega)
  simp only [pNum2, ha1, ha2, hb1, hb2]
  rw [if_pos ⟨trivial, trivial, by omega, by omega⟩]
  exact congrArg (fun n => some (n, rest)) (by omega : 10 * (v / 10) + v % 10 = v)

theorem pYear4_digits (v : Nat) (h : v ≤ 9999) (rest : List Char) :
    pYear4 (Nat.digitChar (v / 1000) :: Nat.digitChar (v / 100 % 10) ::
      Nat.digitChar (v / 10 % 10) :: Nat.digitChar (v % 10) :: rest) =
      some (v, rest) := by
  obtain ⟨ha1, hb1⟩ := digitChar_digit (v / 1000) (by omega)
  obtain ⟨ha2, hb2⟩ := digitChar_digit (v / 100 % 10) (by omega)
  obtain ⟨ha3, hb3⟩ := digitChar_digit (v / 10 % 10) (by omega)
  obtain ⟨ha4, hb4⟩ := digitChar_digit (v % 10) (by omega)
  simp only [pYear4, ha1, ha2, ha3, ha4, hb1, hb2, hb3, hb4]
  rw [if_pos ⟨trivial, trivial, trivial, trivial⟩]
  exact congrArg (fun n => some (n, rest))
    (by omega : 1000 * (v / 1000) + 100 * (v / 100 % 10) + 10 * (v / 10 % 10) +
      v % 10 = v)

theorem expectChar_self (c : Char) : ∀ r, expectChar c (c :: r) = some r := by
  intro r
  simp [expectChar]

theorem wsPlus_space : ∀ r, wsPlus (' ' :: r) = some (r.dropWhile isSpaceB) := by
  intro r
  simp [wsPlus, isSpaceB]

theorem dropWhile_digit (c : Char) (hc : isDigitB c = true) :
    ∀ r, (c :: r).dropWhile isSpaceB = c :: r := by
  intro r
  have hs : isSpaceB c = false := by
    simp only [isDigitB, decide_eq_true_eq] at hc
    simp only [isSpaceB, decide_eq_false_iff_not]
    omega
  simp [List.dropWhile_cons, hs]

theorem daysInMonth_le (y m : Nat) : daysInMonth y m ≤ 31 := by
  unfold daysInMonth
  split
  · split <;> omega
  · split <;> omega

theorem pyStrptime_render (d m y hh mi ss : Nat)
    (hd1 : 1 ≤ d) (hdm : d ≤ daysInMonth y m) (hm1 : 1 ≤ m) (hm2 : m ≤ 12)
    (hy1 : 1 ≤ y) (hy2 : y ≤ 9999) (hhh : hh ≤ 23) (hmi : mi ≤ 59)
    (hss : ss ≤ 59) :
    pyStrptimeDMYHMS (renderDateText d m y hh mi ss).toList =
      some ⟨y, m, d, hh, mi, ss⟩ := by
  have hd31 : d ≤ 31 := le_trans hdm (daysInMonth_le y m)
  have e_d := pNum2_digits 1 31 1 9 d hd1 hd31 (by omega)
  have e_m := pNum2_digits 1 12 1 9 m hm1 hm2 (by omega)
  have e_y := pYear4_digits y hy2
  have e_h := pNum2_digits 0 23 0 9 hh (by omega) hhh (by omega)
  have e_mi := pNum2_digits 0 59 0 9 mi (by omega) hmi (by omega)
  have e_ss := pNum2_digits 0 61 0 9 ss (by omega) (by omega) (by omega)
  have e_dw := dropWhile_digit (Nat.digitChar (hh / 10))
    (digitChar_digit (hh / 10) (by omega)).1
  have htl : (renderDateText d m y hh mi ss).toList =
      pad2 d ++ '.' :: (pad2 m ++ '.' :: (pad4 y ++ '.' :: ' ' ::
        (pad2 hh ++ ':' :: (pad2 mi ++ ':' :: pad2 ss)))) := rfl
  rw [htl]
  simp only [pad2, pad4, List.cons_append, List.nil_append]
  simp only [pyStrptimeDMYHMS, e_d, e_m, e_y, e_h, e_mi, e_ss, expectChar_self,
    wsPlus_space, e_dw]
  rw [mkDateTime, if_pos ⟨hy1, hy2, hm1, hm2, hd1, hdm, hhh, hmi, hss⟩]

/- ### Deriving the absence of an `upload_bill` replace-match from earlier
lookup misses: the upsert filter `(image_name, qr_url, user)` is stricter
than the queries already known to have missed.  -/

theorem repl_none_of_S1_none (s : DbState) (u hsh : String)
    (req : UploadBillRequest)
    (himg : hsh = "" ∨ req.image_name = hsh)
    (h : get_bill none (some u) (some hsh) none s = none) :
    s.bills.find? (replFilter req u) = none := by
  rw [List.find?_eq_none]
  intro x hx hpx
  rw [replFilter_true_iff] at hpx
  obtain ⟨hxi, hxq, hxu⟩ := hpx
  rw [get_bill_none_iff] at h
  apply h x hx
  rw [billQuery_true_iff]
  refine ⟨rfl, ?_, ?_, rfl⟩
  · rw [optStrFilter_some_iff]
    right
    exact hxu
  · rw [optStrFilter_some_iff]
    rcases himg with he | he
    · left; exact he
    · right; rw [hxi, he]

theorem repl_none_of_url_none (s : DbState) (u uq : String)
    (req : UploadBillRequest)
    (hq : uq = "" ∨ req.qr_url = uq)
    (h : get_bill none (some u) none (some uq) s = none) :
    s.bills.find? (replFilter req u) = none := by
  rw [List.find?_eq_none]
  intro x hx hpx
  rw [replFilter_true_iff] at hpx
  obtain ⟨hxi, hxq, hxu⟩ := hpx
  rw [get_bill_none_iff] at h
  apply h x hx
  rw [billQuery_true_iff]
  refine ⟨rfl, ?_, rfl, ?_⟩
  · rw [optStrFilter_some_iff]
    right
    exact hxu
  · rw [optStrFilter_some_iff]
    rcases hq with he | he
    · left; exact he
    · right; rw [hxq, he]

theorem billQuery_image_only (hsh : String) (b : BillDoc) :
    billQuery none none (some hsh) none b = optStrFilter (some hsh) b.image_name := by
  simp [billQuery, optNatFilter, optStrFilter_none_eq, Bool.true_and, Bool.and_true]

theorem billQuery_url_only (uq : String) (b : BillDoc) :
    billQuery none none none (some uq) b = optStrFilter (some uq) b.qr_url := by
  simp [billQuery, optNatFilter, optStrFilter_none_eq, Bool.true_and, Bool.and_true]

/- ### Claims C5, C7, C9 -/

/-- Claim C5, counterexample to the claim as stated: the extracted label text
`01.02.2023 12:34:56` has exactly the shape day.month.year hour:minute:second,
yet `get_dt` raises (`strptime` rejects it): the actual format string
`'%d.%m.%Y. %H:%M:%S'` demands a period after the year. -/
theorem claim_C5_counterexample :
    parse_bill_datetime
        "<span id=\"sdcDateTimeLabel\">01.02.2023 12:34:56</span>" =
      some "01.02.2023 12:34:56" ∧
    get_dt "<span id=\"sdcDateTimeLabel\">01.02.2023 12:34:56</span>" =
      .error .valueError := by
  constructor
  · decide
  · decide

/-- Claim C5 (amended): `get_dt` extracts the `sdcDateTimeLabel` text and
parses it with the fixed pattern day.month.year**.** hour:minute:second (a
period also follows the year); for every page whose extracted label text has
exactly that shape with in-range field values `get_dt` returns the
corresponding datetime, and whenever the extracted text fails the pattern
`get_dt` fails the parse (with the uncaught `ValueError`) rather than
returning a default value. -/
theorem claim_C5_timestamp_parsing :
    (∀ content extracted, parse_bill_datetime content = some extracted →
      pyStrptimeDMYHMS extracted.toList = none →
      get_dt content = .error .valueError) ∧
    (∀ content d m y hh mi ss,
      parse_bill_datetime content = some (renderDateText d m y hh mi ss) →
      1 ≤ d → d ≤ daysInMonth y m → 1 ≤ m → m ≤ 12 → 1 ≤ y → y ≤ 9999 →
      hh ≤ 23 → mi ≤ 59 → ss ≤ 59 →
      get_dt content = .ok ⟨y, m, d, hh, mi, ss⟩) := by
  constructor
  · intro content extracted h1 h2
    simp only [get_dt, h1, h2]
  · intro content d m y hh mi ss h1 hd1 hdm hm1 hm2 hy1 hy2 hhh hmi hss
    simp only [get_dt, h1,
      pyStrptime_render d m y hh mi ss hd1 hdm hm1 hm2 hy1 hy2 hhh hmi hss]

/-- Claim C5 witness: on a page whose label reads `28.02.2023. 12:34:56` the
amended theorem yields the corresponding datetime. -/
theorem claim_C5_witness :
    get_dt "<span id=\"sdcDateTimeLabel\">28.02.2023. 12:34:56</span>" =
      .ok ⟨2023, 2, 28, 12, 34, 56⟩ :=
  claim_C5_timestamp_parsing.2
    "<span id=\"sdcDateTimeLabel\">28.02.2023. 12:34:56</span>"
    28 2 2023 12 34 56 (by decide) (by decide) (by decide) (by decide)
    (by decide) (by decide) (by decide) (by decide) (by decide) (by decide)

/-- Claim C7: the metadata block delimited by the fiscal-receipt header and
the `ПРОМЕТ ПРОДАЈА` footer is split on CRLF into whitespace-trimmed lines
(first conjunct — note `get_meta_info` succeeds with the full list whatever
its length: the parser performs no length check), and the i-th trimmed line
becomes the i-th of the seven `SellerInfo` fields in the fixed order number,
company, store, address, district, cashier, esir, lines beyond the seventh
ignored (second conjunct). -/
theorem claim_C7_seller_positional :
    (∀ content block, parse_bill_meta_info content = some block →
      get_meta_info content =
        .ok ((splitCRLFAux block.toList []).map (fun l => String.mk (pyStrip l)))) ∧
    (∀ l0 l1 l2 l3 l4 l5 l6 rest,
      mkSellerInfo (l0 :: l1 :: l2 :: l3 :: l4 :: l5 :: l6 :: rest) =
        some ⟨l0, l1, l2, l3, l4, l5, l6⟩) := by
  constructor
  · intro content block h
    simp only [get_meta_info, h]
  · intro l0 l1 l2 l3 l4 l5 l6 rest
    rfl

/-- Claim C7 witness: an eight-line metadata block is split, trimmed and
mapped positionally, the eighth line ignored. -/
theorem claim_C7_witness :
    get_meta_info ("============ ФИСКАЛНИ РАЧУН ============\r\n l1 \r\nl2\r\nl3\r\nl4\r\nl5\r\nl6\r\nl7\r\nl8\r\n-------------ПРОМЕТ ПРОДАЈА-------------") =
      .ok ["l1", "l2", "l3", "l4", "l5", "l6", "l7", "l8"] ∧
    mkSellerInfo ["l1", "l2", "l3", "l4", "l5", "l6", "l7", "l8"] =
      some ⟨"l1", "l2", "l3", "l4", "l5", "l6", "l7"⟩ := by
  constructor
  · have h := claim_C7_seller_positional.1
      ("============ ФИСКАЛНИ РАЧУН ============\r\n l1 \r\nl2\r\nl3\r\nl4\r\nl5\r\nl6\r\nl7\r\nl8\r\n-------------ПРОМЕТ ПРОДАЈА-------------")
      (" l1 \r\nl2\r\nl3\r\nl4\r\nl5\r\nl6\r\nl7\r\nl8") (by decide)
    rw [h]
    decide
  · exact claim_C7_seller_positional.2 "l1" "l2" "l3" "l4" "l5" "l6" "l7" ["l8"]

/-- Claim C9: `get_bill` with `bill_id`, `user_name`, `image_name` and
`qr_url` all absent builds an empty query, so it returns the first stored
document (whoever owns it) when the collection is non-empty, and `None`
exactly when the collection is empty. -/
theorem claim_C9_unfiltered_lookup (s : DbState) :
    get_bill none none none none s = s.bills.head? := by
  unfold get_bill
  cases s.bills with
  | nil => rfl
  | cons a l =>
    rw [List.find?_cons]
    simp [billQuery, optNatFilter, optStrFilter]

/- ### Claims C3, C4 -/

/-- Claim C3: for an upload of a never-before-seen image whose QR payload
decodes to a syntactically valid absolute URL whose host is not
`suf.purs.gov.rs`, resolution fails with `HTTPException(422, "Invalid QR
URL")`, the store is returned unchanged (no bill upsert, no stored image),
and neither outbound HTTP call is made (`getCalls = postCalls = 0`). -/
theorem claim_C3_host_validation (w : World) (s : DbState) (B : Bytes)
    (u : String) (payload : String) (url : HttpUrl)
    (h1 : get_bill none (some u) (some (w.hash B)) none s = none)
    (h2 : get_bill none none (some (w.hash B)) none s = none)
    (hdec : w.decode B = .ok payload)
    (hparse : parseHttpUrl payload = some url)
    (hhost : ¬ url.host = "suf.purs.gov.rs") :
    processing_by_image w s B u =
      (.error (.http 422 "Invalid QR URL"), s, ⟨1, 0, 0, 0⟩) := by
  have hd : qr_decode_by_image_bytes w B = .ok url := by
    simp only [qr_decode_by_image_bytes, hdec, hparse]
  exact run_bad_host h1 h2 hd hhost

/-- Claim C3 witness: empty store, payload `https://not-suf.example/x`. -/
theorem claim_C3_witness :
    processing_by_image
      ⟨fun _ => "h1", fun _ => .ok "https://not-suf.example/x",
       fun _ => (500, ""), fun _ => (500, ⟨none, none⟩)⟩
      ⟨[], [], 0⟩ [0] "u" =
      (.error (.http 422 "Invalid QR URL"), ⟨[], [], 0⟩, ⟨1, 0, 0, 0⟩) :=
  claim_C3_host_validation _ _ _ _ "https://not-suf.example/x"
    ⟨"https", "not-suf.example", "/x"⟩ rfl rfl rfl (by decide) (by decide)

/-- Claim C4: for an upload of a never-before-seen image on which the QR
decoder reports not-found, the raw bytes are persisted into the `image`
collection keyed by `(content_hash, user)` and the request then fails with the
decode error: the final state returned alongside the propagated 422 error
already contains the stored image, and the `bill` collection is untouched. -/
theorem claim_C4_decode_side_effect (w : World) (s : DbState) (B : Bytes)
    (u : String)
    (h1 : get_bill none (some u) (some (w.hash B)) none s = none)
    (h2 : get_bill none none (some (w.hash B)) none s = none)
    (hdec : w.decode B = .error ())
    (himg : s.images.find?
      (fun d => d.image_name = w.hash B && d.user_name = u) = none) :
    processing_by_image w s B u =
      (.error (.http 422 "Failed to decode QR code: QRCodeDecodeError"),
       ⟨s.bills, s.images ++ [⟨w.hash B, u, B⟩], s.nextId⟩, ⟨1, 0, 0, 0⟩) := by
  have hd : qr_decode_by_image_bytes w B =
      .error (.http 422 "Failed to decode QR code: QRCodeDecodeError") := by
    simp only [qr_decode_by_image_bytes, hdec]
  rw [run_decode_error h1 h2 hd]
  unfold upload_image_bytes
  rw [himg]

/-- Claim C4 witness: empty store, a decoder that reports not-found. -/
theorem claim_C4_witness :
    processing_by_image
      ⟨fun _ => "h1", fun _ => .error (), fun _ => (500, ""),
       fun _ => (500, ⟨none, none⟩)⟩
      ⟨[], [], 0⟩ [7] "u" =
      (.error (.http 422 "Failed to decode QR code: QRCodeDecodeError"),
       ⟨[], [⟨"h1", "u", [7]⟩], 0⟩, ⟨1, 0, 0, 0⟩) :=
  claim_C4_decode_side_effect _ _ _ _ rfl rfl rfl rfl

/- ### Claims C6, C8 -/

/-- Claim C6: for a fetched verification page containing the invoice-number
pattern but not the token pattern, the request fails with
`HTTPException(422, "pattern 'token' not found")` — an error naming the field
`token`, distinct from the three messages naming the other fields — with the
store unchanged (no bill record written) and no POST performed. -/
theorem claim_C6_token_diagnostics (w : World) (s : DbState) (B : Bytes)
    (u : String) (payload : String) (url : HttpUrl) (content v : String)
    (h1 : get_bill none (some u) (some (w.hash B)) none s = none)
    (h2 : get_bill none none (some (w.hash B)) none s = none)
    (hdec : w.decode B = .ok payload)
    (hparse : parseHttpUrl payload = some url)
    (hhost : url.host = "suf.purs.gov.rs")
    (h4 : get_bill none (some u) none (some (urlStr url)) s = none)
    (h5 : get_bill none none none (some (urlStr url)) s = none)
    (hget : w.getPage (urlStr url) = (200, content))
    (hinv : parse_invoice_number content = some v)
    (htok : parse_token content = none) :
    processing_by_image w s B u =
      (.error (.http 422 "pattern 'token' not found"), s, ⟨1, 1, 1, 0⟩) ∧
    ¬ "pattern 'token' not found" = "pattern 'invoice_number' not found" ∧
    ¬ "pattern 'token' not found" = "pattern 'bill_datetime' not found" ∧
    ¬ "pattern 'token' not found" = "pattern 'bill_meta_info' not found" := by
  have hd : qr_decode_by_image_bytes w B = .ok url := by
    simp only [qr_decode_by_image_bytes, hdec, hparse]
  have hspec : get_specifications_request content =
      .error (.parseContent "pattern 'token' not found") := by
    simp only [get_specifications_request, hinv, htok]
  have hc : processing_qr_url_content w url =
      (.error (.http 422 "pattern 'token' not found"), ⟨0, 1, 1, 0⟩) := by
    unfold processing_qr_url_content
    rw [hget]
    simp [hspec, parseErrToHttp, is2xx]
  refine ⟨?_, by decide, by decide, by decide⟩
  rw [run_S6_error h1 h2 hd hhost h4 h5 hc]

/-- Claim C6 witness: empty store, a page containing only the invoice-number
pattern. -/
theorem claim_C6_witness :
    processing_by_image
      ⟨fun _ => "h1", fun _ => .ok "https://suf.purs.gov.rs/v/?x=1",
       fun _ => (200, "viewModel.InvoiceNumber('INV1') and nothing else"),
       fun _ => (500, ⟨none, none⟩)⟩
      ⟨[], [], 0⟩ [0] "u" =
      (.error (.http 422 "pattern 'token' not found"), ⟨[], [], 0⟩,
       ⟨1, 1, 1, 0⟩) ∧
    ¬ "pattern 'token' not found" = "pattern 'invoice_number' not found" ∧
    ¬ "pattern 'token' not found" = "pattern 'bill_datetime' not found" ∧
    ¬ "pattern 'token' not found" = "pattern 'bill_meta_info' not found" :=
  claim_C6_token_diagnostics _ _ _ _ "https://suf.purs.gov.rs/v/?x=1"
    ⟨"https", "suf.purs.gov.rs", "/v/?x=1"⟩
    "viewModel.InvoiceNumber('INV1') and nothing else" "INV1"
    rfl rfl rfl (by decide) rfl rfl rfl rfl (by decide) (by decide)

/-- Claim C8: when the specifications POST returns 2xx with `success` false or
absent, resolution does not fail: the client yields an empty line-item
sequence and the pipeline stores (and returns) a canonical receipt with zero
items. -/
theorem claim_C8_zero_items (w : World) (s : DbState) (B : Bytes) (u : String)
    (payload : String) (url : HttpUrl) (content : String)
    (sr : SpecificationsRequest) (dtv : PyDateTime) (lines : List String)
    (si : SellerInfo) (body : PostBody)
    (hwf : WF s)
    (h1 : get_bill none (some u) (some (w.hash B)) none s = none)
    (h2 : get_bill none none (some (w.hash B)) none s = none)
    (hdec : w.decode B = .ok payload)
    (hparse : parseHttpUrl payload = some url)
    (hhost : url.host = "suf.purs.gov.rs")
    (h4 : get_bill none (some u) none (some (urlStr url)) s = none)
    (h5 : get_bill none none none (some (urlStr url)) s = none)
    (hget : w.getPage (urlStr url) = (200, content))
    (hsr : get_specifications_request content = .ok sr)
    (hdt : get_dt content = .ok dtv)
    (hmeta : get_meta_info content = .ok lines)
    (hsi : mkSellerInfo lines = some si)
    (hpost : w.postSpec sr = (200, body))
    (hsucc : body.success = some false ∨ body.success = none) :
    processing_by_image w s B u =
      (.ok (some (mkBillDoc s.nextId (newBillReq (w.hash B) url ⟨dtv, [], si⟩) u)),
       insertState s (newBillReq (w.hash B) url ⟨dtv, [], si⟩) u, ⟨1, 1, 1, 1⟩) ∧
    (mkBillDoc s.nextId (newBillReq (w.hash B) url ⟨dtv, [], si⟩) u).items = [] := by
  have hd : qr_decode_by_image_bytes w B = .ok url := by
    simp only [qr_decode_by_image_bytes, hdec, hparse]
  have hflag : body.success.getD false = false := by
    rcases hsucc with h | h <;> simp [h]
  have hc : processing_qr_url_content w url = (.ok ⟨dtv, [], si⟩, ⟨0, 1, 1, 1⟩) := by
    unfold processing_qr_url_content
    rw [hget]
    simp [hsr, hdt, hmeta, hpost, hsi, hflag, is2xx]
  have hrepl := repl_none_of_S1_none s u (w.hash B)
    (newBillReq (w.hash B) url ⟨dtv, [], si⟩) (Or.inr rfl) h1
  refine ⟨?_, rfl⟩
  rw [run_S6_ok h1 h2 hd hhost h4 h5 hc hrepl hwf]

/-- Claim C8 witness: empty store, a fully parseable page, and a POST response
`{"success": false}`; one zero-item receipt is stored and returned. -/
theorem claim_C8_witness :
    processing_by_image
      ⟨fun _ => "h1", fun _ => .ok "https://suf.purs.gov.rs/v/?x=1",
       fun _ => (200, "viewModel.InvoiceNumber('INV1') viewModel.Token('TOK1') <span id=\"sdcDateTimeLabel\">01.02.2023. 12:34:56</span>============ ФИСКАЛНИ РАЧУН ============\r\nl1\r\nl2\r\nl3\r\nl4\r\nl5\r\nl6\r\nl7\r\n-------------ПРОМЕТ ПРОДАЈА-------------"),
       fun _ => (200, ⟨some false, none⟩)⟩
      ⟨[], [], 0⟩ [0] "u" =
      (.ok (some (mkBillDoc 0
        (newBillReq "h1" ⟨"https", "suf.purs.gov.rs", "/v/?x=1"⟩
          ⟨⟨2023, 2, 1, 12, 34, 56⟩, [], ⟨"l1", "l2", "l3", "l4", "l5", "l6", "l7"⟩⟩)
        "u")),
       insertState ⟨[], [], 0⟩
        (newBillReq "h1" ⟨"https", "suf.purs.gov.rs", "/v/?x=1"⟩
          ⟨⟨2023, 2, 1, 12, 34, 56⟩, [], ⟨"l1", "l2", "l3", "l4", "l5", "l6", "l7"⟩⟩)
        "u", ⟨1, 1, 1, 1⟩) ∧
    (mkBillDoc 0
      (newBillReq "h1" ⟨"https", "suf.purs.gov.rs", "/v/?x=1"⟩
        ⟨⟨2023, 2, 1, 12, 34, 56⟩, [], ⟨"l1", "l2", "l3", "l4", "l5", "l6", "l7"⟩⟩)
      "u").items = [] :=
  claim_C8_zero_items _ _ _ _ "https://suf.purs.gov.rs/v/?x=1"
    ⟨"https", "suf.purs.gov.rs", "/v/?x=1"⟩
    "viewModel.InvoiceNumber('INV1') viewModel.Token('TOK1') <span id=\"sdcDateTimeLabel\">01.02.2023. 12:34:56</span>============ ФИСКАЛНИ РАЧУН ============\r\nl1\r\nl2\r\nl3\r\nl4\r\nl5\r\nl6\r\nl7\r\n-------------ПРОМЕТ ПРОДАЈА-------------"
    ⟨"INV1", "TOK1"⟩ ⟨2023, 2, 1, 12, 34, 56⟩
    ["l1", "l2", "l3", "l4", "l5", "l6", "l7"]
    ⟨"l1", "l2", "l3", "l4", "l5", "l6", "l7"⟩ ⟨some false, none⟩
    rfl rfl rfl rfl (by decide) rfl rfl rfl rfl (by decide) (by decide)
    (by decide) rfl rfl (Or.inl rfl)

/- ### Concrete example values shared by the remaining claims -/

/-- A timestamp used in concrete scenarios. -/
def exDt : PyDateTime := ⟨2023, 1, 1, 0, 0, 0⟩

/-- A seller-info record used in concrete scenarios. -/
def exSeller : SellerInfo := ⟨"n", "c", "s", "a", "d", "ca", "e"⟩

/-- A line item used in concrete scenarios. -/
def exItem : SpecificationItem := ⟨"g", "name", 1, 2, 2, "A", 20, 1, 1⟩

/-- A verification URL on the government host, as text. -/
def sufUrlText : String := "https://suf.purs.gov.rs/v/?x=1"

/-- The same verification URL, parsed. -/
def sufUrl : HttpUrl := ⟨"https", "suf.purs.gov.rs", "/v/?x=1"⟩

/- ### Lookup hits on a freshly inserted clone -/

theorem get_bill_insert_hit (s : DbState) (req : UploadBillRequest)
    (u hsh : String)
    (himg : hsh = "" ∨ req.image_name = hsh)
    (h1 : get_bill none (some u) (some hsh) none s = none) :
    get_bill none (some u) (some hsh) none (insertState s req u) =
      some (mkBillDoc s.nextId req u) := by
  unfold insertState
  rw [get_bill_append_one _ _ _ _ s _ _ _ h1]
  have hq : billQuery none (some u) (some hsh) none (mkBillDoc s.nextId req u) =
      true := by
    rw [billQuery_true_iff]
    refine ⟨rfl, ?_, ?_, rfl⟩
    · rw [optStrFilter_some_iff]; right; rfl
    · rw [optStrFilter_some_iff]
      rcases himg with he | he
      · left; exact he
      · right; exact he
  rw [if_pos hq]

theorem get_bill_insert_hit_url (s : DbState) (req : UploadBillRequest)
    (u uq : String)
    (hq : uq = "" ∨ req.qr_url = uq)
    (h4 : get_bill none (some u) none (some uq) s = none) :
    get_bill none (some u) none (some uq) (insertState s req u) =
      some (mkBillDoc s.nextId req u) := by
  unfold insertState
  rw [get_bill_append_one _ _ _ _ s _ _ _ h4]
  have hb : billQuery none (some u) none (some uq) (mkBillDoc s.nextId req u) =
      true := by
    rw [billQuery_true_iff]
    refine ⟨rfl, ?_, rfl, ?_⟩
    · rw [optStrFilter_some_iff]; right; rfl
    · rw [optStrFilter_some_iff]
      rcases hq with he | he
      · left; exact he
      · right; exact he
  rw [if_pos hb]

/- ### Claim C2 -/

/-- Claim C2, counterexample to the claim as stated: image bytes `[0]` were
already resolved successfully for user `A` (a record with `image_name =
hash(B)` exists), yet resolving for the distinct user `C` — who happens to
have their own record for the same image with different (empty) items —
returns C's pre-existing record at the S1 lookup: its items do not equal A's,
and nothing is written (the state is returned unchanged, so no clone upsert
happened). -/
theorem claim_C2_counterexample :
    processing_by_image
      ⟨fun _ => "h1", fun _ => .error (), fun _ => (500, ""),
       fun _ => (500, ⟨none, none⟩)⟩
      ⟨[⟨0, "h1", sufUrlText, "A", exDt, [exItem], exSeller, "Other"⟩,
        ⟨1, "h1", sufUrlText, "C", exDt, [], exSeller, "Other"⟩], [], 2⟩
      [0] "C" =
      (.ok (some ⟨1, "h1", sufUrlText, "C", exDt, [], exSeller, "Other"⟩),
       ⟨[⟨0, "h1", sufUrlText, "A", exDt, [exItem], exSeller, "Other"⟩,
         ⟨1, "h1", sufUrlText, "C", exDt, [], exSeller, "Other"⟩], [], 2⟩,
       ⟨0, 0, 0, 0⟩) ∧
    ¬ ([] : List SpecificationItem) = [exItem] := by
  constructor
  · decide
  · decide

/-- Claim C2 (amended): given that the first stored receipt carrying
`image_name = hash(B)` belongs to user `A`, and that the distinct user `C` has
no record keyed `(hash(B), C)` and none for A's verification URL, resolving
`B` for `C` returns a freshly cloned record owned by `C` with A's
`seller_info` and items, performs no decode, no parse and no HTTP call
(trace all zero), and upserts the clone so that a record keyed
`(hash(B), C)` exists afterwards. -/
theorem claim_C2_cross_user_sharing (w : World) (s : DbState) (B : Bytes)
    (A C : String) (bA : BillDoc)
    (_hAC : ¬ A = C)
    (hwf : WF s)
    (h2 : get_bill none none (some (w.hash B)) none s = some bA)
    (_hA : bA.user_name = A)
    (h1 : get_bill none (some C) (some (w.hash B)) none s = none)
    (h3 : get_bill none (some C) none (some bA.qr_url) s = none) :
    processing_by_image w s B C =
      (.ok (some (mkBillDoc s.nextId (cloneReq bA) C)),
       insertState s (cloneReq bA) C, ⟨0, 0, 0, 0⟩) ∧
    (mkBillDoc s.nextId (cloneReq bA) C).user_name = C ∧
    (mkBillDoc s.nextId (cloneReq bA) C).seller_info = bA.seller_info ∧
    (mkBillDoc s.nextId (cloneReq bA) C).items = bA.items ∧
    get_bill none (some C) (some (w.hash B)) none (insertState s (cloneReq bA) C) =
      some (mkBillDoc s.nextId (cloneReq bA) C) := by
  have himg : w.hash B = "" ∨ (cloneReq bA).image_name = w.hash B := by
    have hq := List.find?_some h2
    rw [billQuery_true_iff] at hq
    obtain ⟨-, -, hqi, -⟩ := hq
    rw [optStrFilter_some_iff] at hqi
    exact hqi
  have hrepl := repl_none_of_S1_none s C (w.hash B) (cloneReq bA) himg h1
  exact ⟨run_S2b h1 h2 h3 hrepl hwf, rfl, rfl, rfl,
    get_bill_insert_hit s (cloneReq bA) C (w.hash B) himg h1⟩

/-- Claim C2 witness: user `A` owns the only record for image hash `h1`;
resolving the same bytes for user `C` clones it. -/
theorem claim_C2_witness :
    processing_by_image
      ⟨fun _ => "h1", fun _ => .error (), fun _ => (500, ""),
       fun _ => (500, ⟨none, none⟩)⟩
      ⟨[⟨0, "h1", sufUrlText, "A", exDt, [exItem], exSeller, "Other"⟩], [], 1⟩
      [0] "C" =
      (.ok (some (mkBillDoc 1
        (cloneReq ⟨0, "h1", sufUrlText, "A", exDt, [exItem], exSeller, "Other"⟩)
        "C")),
       insertState
         ⟨[⟨0, "h1", sufUrlText, "A", exDt, [exItem], exSeller, "Other"⟩], [], 1⟩
         (cloneReq ⟨0, "h1", sufUrlText, "A", exDt, [exItem], exSeller, "Other"⟩)
         "C", ⟨0, 0, 0, 0⟩) ∧
    (mkBillDoc 1
      (cloneReq ⟨0, "h1", sufUrlText, "A", exDt, [exItem], exSeller, "Other"⟩)
      "C").user_name = "C" ∧
    (mkBillDoc 1
      (cloneReq ⟨0, "h1", sufUrlText, "A", exDt, [exItem], exSeller, "Other"⟩)
      "C").seller_info = exSeller ∧
    (mkBillDoc 1
      (cloneReq ⟨0, "h1", sufUrlText, "A", exDt, [exItem], exSeller, "Other"⟩)
      "C").items = [exItem] ∧
    get_bill none (some "C") (some "h1") none
      (insertState
        ⟨[⟨0, "h1", sufUrlText, "A", exDt, [exItem], exSeller, "Other"⟩], [], 1⟩
        (cloneReq ⟨0, "h1", sufUrlText, "A", exDt, [exItem], exSeller, "Other"⟩)
        "C") =
      some (mkBillDoc 1
        (cloneReq ⟨0, "h1", sufUrlText, "A", exDt, [exItem], exSeller, "Other"⟩)
        "C") :=
  claim_C2_cross_user_sharing _ _ [0] "A" "C"
    ⟨0, "h1", sufUrlText, "A", exDt, [exItem], exSeller, "Other"⟩
    (by decide) (by unfold WF; decide) (by decide) rfl (by decide) (by decide)

/- ### Claim C10 -/

/-- Claim C10: both clone paths — S2b (foreign image match) and S5 (foreign
URL match) — write `UploadBillRequest(**bill.model_dump())` under the current
user: the stored record is the field-for-field copy `mkBillDoc` of `cloneReq`,
whose `dt`, `qr_url`, `image_name`, `seller_info`, `items` and in particular
`category` all equal the source record's fields (third conjunct), so a cloned
record keeps the source's category, which may differ from the default
`"Other"` given to freshly resolved receipts. -/
theorem claim_C10_clone_copies_category :
    (∀ (w : World) (s : DbState) (B : Bytes) (u : String) (b : BillDoc),
      WF s →
      get_bill none (some u) (some (w.hash B)) none s = none →
      get_bill none none (some (w.hash B)) none s = some b →
      get_bill none (some u) none (some b.qr_url) s = none →
      processing_by_image w s B u =
        (.ok (some (mkBillDoc s.nextId (cloneReq b) u)),
         insertState s (cloneReq b) u, ⟨0, 0, 0, 0⟩)) ∧
    (∀ (w : World) (s : DbState) (B : Bytes) (u : String) (payload : String)
        (url : HttpUrl) (b : BillDoc),
      WF s →
      get_bill none (some u) (some (w.hash B)) none s = none →
      get_bill none none (some (w.hash B)) none s = none →
      w.decode B = .ok payload →
      parseHttpUrl payload = some url →
      url.host = "suf.purs.gov.rs" →
      get_bill none (some u) none (some (urlStr url)) s = none →
      get_bill none none none (some (urlStr url)) s = some b →
      processing_by_image w s B u =
        (.ok (some (mkBillDoc s.nextId (cloneReq b) u)),
         insertState s (cloneReq b) u, ⟨1, 0, 0, 0⟩)) ∧
    (∀ (idv : Nat) (b : BillDoc) (u : String),
      (mkBillDoc idv (cloneReq b) u).dt = b.dt ∧
      (mkBillDoc idv (cloneReq b) u).qr_url = b.qr_url ∧
      (mkBillDoc idv (cloneReq b) u).image_name = b.image_name ∧
      (mkBillDoc idv (cloneReq b) u).seller_info = b.seller_info ∧
      (mkBillDoc idv (cloneReq b) u).items = b.items ∧
      (mkBillDoc idv (cloneReq b) u).category = b.category ∧
      (mkBillDoc idv (cloneReq b) u).user_name = u) := by
  refine ⟨?_, ?_, ?_⟩
  · intro w s B u b hwf h1 h2 h3
    have himg : w.hash B = "" ∨ (cloneReq b).image_name = w.hash B := by
      have hq := List.find?_some h2
      rw [billQuery_true_iff] at hq
      obtain ⟨-, -, hqi, -⟩ := hq
      rw [optStrFilter_some_iff] at hqi
      exact hqi
    exact run_S2b h1 h2 h3
      (repl_none_of_S1_none s u (w.hash B) (cloneReq b) himg h1) hwf
  · intro w s B u payload url b hwf h1 h2 hdec hparse hhost h4 h5
    have hd : qr_decode_by_image_bytes w B = .ok url := by
      simp only [qr_decode_by_image_bytes, hdec, hparse]
    have hq : urlStr url = "" ∨ (cloneReq b).qr_url = urlStr url := by
      have hqq := List.find?_some h5
      rw [billQuery_true_iff] at hqq
      obtain ⟨-, -, -, hq4⟩ := hqq
      rw [optStrFilter_some_iff] at hq4
      exact hq4
    exact run_S5 h1 h2 hd hhost h4 h5
      (repl_none_of_url_none s u (urlStr url) (cloneReq b) hq h4) hwf
  · intro idv b u
    exact ⟨rfl, rfl, rfl, rfl, rfl, rfl, rfl⟩

/-- Claim C10 witness: the S2b clone of a record whose category is `"Food"`
carries category `"Food"`, not the default `"Other"`. -/
theorem claim_C10_witness :
    processing_by_image
      ⟨fun _ => "h1", fun _ => .error (), fun _ => (500, ""),
       fun _ => (500, ⟨none, none⟩)⟩
      ⟨[⟨0, "h1", sufUrlText, "A", exDt, [exItem], exSeller, "Food"⟩], [], 1⟩
      [0] "C" =
      (.ok (some (mkBillDoc 1
        (cloneReq ⟨0, "h1", sufUrlText, "A", exDt, [exItem], exSeller, "Food"⟩)
        "C")),
       insertState
         ⟨[⟨0, "h1", sufUrlText, "A", exDt, [exItem], exSeller, "Food"⟩], [], 1⟩
         (cloneReq ⟨0, "h1", sufUrlText, "A", exDt, [exItem], exSeller, "Food"⟩)
         "C", ⟨0, 0, 0, 0⟩) ∧
    (mkBillDoc 1
      (cloneReq ⟨0, "h1", sufUrlText, "A", exDt, [exItem], exSeller, "Food"⟩)
      "C").category = "Food" ∧
    ¬ "Food" = "Other" :=
  ⟨claim_C10_clone_copies_category.1 _ _ [0] "C"
    ⟨0, "h1", sufUrlText, "A", exDt, [exItem], exSeller, "Food"⟩
    (by unfold WF; decide) (by decide) (by decide) (by decide),
   (claim_C10_clone_copies_category.2.2 1
    ⟨0, "h1", sufUrlText, "A", exDt, [exItem], exSeller, "Food"⟩ "C").2.2.2.2.2.1,
   by decide⟩

/- ### Claim C1 -/

/-- Claim C1, counterexample to the claim as stated: the user already owns a
record for the same verification URL under a *different* image hash (`h2`).
The first call with the new bytes (hash `h1`) succeeds via the S4 URL-owned
lookup without writing anything, so the second call with the same `(B, u)` —
run from the returned state, which equals the initial one — decodes the QR
code again (`decodeCalls = 1`, not `0`) instead of returning at the S1
lookup. -/
theorem claim_C1_counterexample :
    processing_by_image
      ⟨fun _ => "h1", fun _ => .ok sufUrlText, fun _ => (500, ""),
       fun _ => (500, ⟨none, none⟩)⟩
      ⟨[⟨0, "h2", sufUrlText, "u", exDt, [], exSeller, "Other"⟩], [], 1⟩
      [0] "u" =
      (.ok (some ⟨0, "h2", sufUrlText, "u", exDt, [], exSeller, "Other"⟩),
       ⟨[⟨0, "h2", sufUrlText, "u", exDt, [], exSeller, "Other"⟩], [], 1⟩,
       ⟨1, 0, 0, 0⟩) ∧
    (processing_by_image
      ⟨fun _ => "h1", fun _ => .ok sufUrlText, fun _ => (500, ""),
       fun _ => (500, ⟨none, none⟩)⟩
      ((processing_by_image
        ⟨fun _ => "h1", fun _ => .ok sufUrlText, fun _ => (500, ""),
         fun _ => (500, ⟨none, none⟩)⟩
        ⟨[⟨0, "h2", sufUrlText, "u", exDt, [], exSeller, "Other"⟩], [], 1⟩
        [0] "u").2.1)
      [0] "u").2.2.decodeCalls = 1 := by
  constructor
  · decide
  · decide

/-- Claim C1 (amended): if a first call to the resolve pipeline with `(B, u)`
succeeds returning receipt `r` and state `s1`, then a second call with the
same `(B, u)` from `s1` also succeeds, returns the same receipt `r`, leaves
the state at `s1`, and invokes neither the fiscal content parser nor either
outbound HTTP call; moreover, whenever a record keyed `(hash B, u)` exists in
`s1` — which is the case when the first call resolved via S1, S2b or S6, but
not via the URL-match paths S2a, S4 or S5 — the second call returns at the S1
lookup with the QR decoder also uninvoked (trace entirely zero). -/
theorem claim_C1_idempotence (w : World) (s : DbState) (B : Bytes) (u : String)
    (r : Option BillDoc) (s1 : DbState) (t1 : Trace)
    (hwf : WF s)
    (h : processing_by_image w s B u = (.ok r, s1, t1)) :
    ∃ t2 : Trace,
      processing_by_image w s1 B u = (.ok r, s1, t2) ∧
      t2.parseCalls = 0 ∧ t2.getCalls = 0 ∧ t2.postCalls = 0 ∧
      (∀ ub, get_bill none (some u) (some (w.hash B)) none s1 = some ub →
        t2 = ⟨0, 0, 0, 0⟩) := by
  cases hS1 : get_bill none (some u) (some (w.hash B)) none s with
  | some ub =>
    rw [run_S1 hS1] at h
    simp only [Prod.mk.injEq, Except.ok.injEq] at h
    obtain ⟨hr, hs, ht⟩ := h
    subst hr
    subst hs
    exact ⟨⟨0, 0, 0, 0⟩, run_S1 hS1, rfl, rfl, rfl, fun _ _ => rfl⟩
  | none =>
    cases hS2 : get_bill none none (some (w.hash B)) none s with
    | some b =>
      cases hS2a : get_bill none (some u) none (some b.qr_url) s with
      | some ub =>
        rw [run_S2a hS1 hS2 hS2a] at h
        simp only [Prod.mk.injEq, Except.ok.injEq] at h
        obtain ⟨hr, hs, ht⟩ := h
        subst hr
        subst hs
        exact ⟨⟨0, 0, 0, 0⟩, run_S2a hS1 hS2 hS2a, rfl, rfl, rfl, fun _ _ => rfl⟩
      | none =>
        have himg : w.hash B = "" ∨ (cloneReq b).image_name = w.hash B := by
          have hq := List.find?_some hS2
          rw [billQuery_true_iff] at hq
          obtain ⟨-, -, hqi, -⟩ := hq
          rw [optStrFilter_some_iff] at hqi
          exact hqi
        have hrepl := repl_none_of_S1_none s u (w.hash B) (cloneReq b) himg hS1
        rw [run_S2b hS1 hS2 hS2a hrepl hwf] at h
        simp only [Prod.mk.injEq, Except.ok.injEq] at h
        obtain ⟨hr, hs, ht⟩ := h
        subst hr
        subst hs
        have hS1s := get_bill_insert_hit s (cloneReq b) u (w.hash B) himg hS1
        exact ⟨⟨0, 0, 0, 0⟩, run_S1 hS1s, rfl, rfl, rfl, fun _ _ => rfl⟩
    | none =>
      cases hd : qr_decode_by_image_bytes w B with
      | error e =>
        rw [run_decode_error hS1 hS2 hd] at h
        simp only [Prod.mk.injEq] at h
        exact Except.noConfusion h.1
      | ok url =>
        by_cases hhost : url.host = "suf.purs.gov.rs"
        · cases hS4 : get_bill none (some u) none (some (urlStr url)) s with
          | some ub =>
            rw [run_S4 hS1 hS2 hd hhost hS4] at h
            simp only [Prod.mk.injEq, Except.ok.injEq] at h
            obtain ⟨hr, hs, ht⟩ := h
            subst hr
            subst hs
            refine ⟨⟨1, 0, 0, 0⟩, run_S4 hS1 hS2 hd hhost hS4, rfl, rfl, rfl, ?_⟩
            intro ub2 hub2
            rw [hS1] at hub2
            exact Option.noConfusion hub2
          | none =>
            cases hS5 : get_bill none none none (some (urlStr url)) s with
            | some b =>
              have hqd : urlStr url = "" ∨ (cloneReq b).qr_url = urlStr url := by
                have hq := List.find?_some hS5
                rw [billQuery_true_iff] at hq
                obtain ⟨-, -, -, hq4⟩ := hq
                rw [optStrFilter_some_iff] at hq4
                exact hq4
              have hrepl := repl_none_of_url_none s u (urlStr url) (cloneReq b)
                hqd hS4
              rw [run_S5 hS1 hS2 hd hhost hS4 hS5 hrepl hwf] at h
              simp only [Prod.mk.injEq, Except.ok.injEq] at h
              obtain ⟨hr, hs, ht⟩ := h
              subst hr
              subst hs
              have hb_mem : b ∈ s.bills := List.mem_of_find?_eq_some hS5
              have hb_no : ¬ billQuery none none (some (w.hash B)) none b = true := by
                rw [get_bill_none_iff] at hS2
                exact hS2 b hb_mem
              rw [billQuery_image_only, optStrFilter_some_iff] at hb_no
              push_neg at hb_no
              obtain ⟨hne, hbne⟩ := hb_no
              have hS1s : get_bill none (some u) (some (w.hash B)) none
                  (insertState s (cloneReq b) u) = none := by
                unfold insertState
                rw [get_bill_append_one _ _ _ _ s _ _ _ hS1]
                rw [if_neg]
                intro hq
                rw [billQuery_true_iff] at hq
                obtain ⟨-, -, hq3, -⟩ := hq
                rw [optStrFilter_some_iff] at hq3
                rcases hq3 with hq3 | hq3
                · exact hne hq3
                · exact hbne hq3
              have hS2s : get_bill none none (some (w.hash B)) none
                  (insertState s (cloneReq b) u) = none := by
                unfold insertState
                rw [get_bill_append_one _ _ _ _ s _ _ _ hS2]
                rw [if_neg]
                intro hq
                rw [billQuery_image_only, optStrFilter_some_iff] at hq
                rcases hq with hq | hq
                · exact hne hq
                · exact hbne hq
              have hS4s := get_bill_insert_hit_url s (cloneReq b) u (urlStr url)
                hqd hS4
              refine ⟨⟨1, 0, 0, 0⟩, run_S4 hS1s hS2s hd hhost hS4s, rfl, rfl,
                rfl, ?_⟩
              intro ub2 hub2
              rw [hS1s] at hub2
              exact Option.noConfusion hub2
            | none =>
              rcases hc : processing_qr_url_content w url with ⟨e | spec, t⟩
              · rw [run_S6_error hS1 hS2 hd hhost hS4 hS5 hc] at h
                simp only [Prod.mk.injEq] at h
                exact Except.noConfusion h.1
              · have hrepl := repl_none_of_S1_none s u (w.hash B)
                  (newBillReq (w.hash B) url spec) (Or.inr rfl) hS1
                rw [run_S6_ok hS1 hS2 hd hhost hS4 hS5 hc hrepl hwf] at h
                simp only [Prod.mk.injEq, Except.ok.injEq] at h
                obtain ⟨hr, hs, ht⟩ := h
                subst hr
                subst hs
                have hS1s := get_bill_insert_hit s
                  (newBillReq (w.hash B) url spec) u (w.hash B) (Or.inr rfl) hS1
                exact ⟨⟨0, 0, 0, 0⟩, run_S1 hS1s, rfl, rfl, rfl, fun _ _ => rfl⟩
        · rw [run_bad_host hS1 hS2 hd hhost] at h
          simp only [Prod.mk.injEq] at h
          exact Except.noConfusion h.1

/-- Claim C1 witness: a user who already owns the record for these exact bytes
(S1 hit) gets the identical receipt again with an all-zero trace. -/
theorem claim_C1_witness :
    ∃ t2 : Trace,
      processing_by_image
        ⟨fun _ => "h1", fun _ => .error (), fun _ => (500, ""),
         fun _ => (500, ⟨none, none⟩)⟩
        ⟨[⟨0, "h1", sufUrlText, "u", exDt, [], exSeller, "Other"⟩], [], 1⟩
        [0] "u" =
        (.ok (some ⟨0, "h1", sufUrlText, "u", exDt, [], exSeller, "Other"⟩),
         ⟨[⟨0, "h1", sufUrlText, "u", exDt, [], exSeller, "Other"⟩], [], 1⟩,
         t2) ∧
      t2.parseCalls = 0 ∧ t2.getCalls = 0 ∧ t2.postCalls = 0 ∧
      (∀ ub, get_bill none (some "u") (some "h1") none
          ⟨[⟨0, "h1", sufUrlText, "u", exDt, [], exSeller, "Other"⟩], [], 1⟩ =
          some ub →
        t2 = ⟨0, 0, 0, 0⟩) :=
  claim_C1_idempotence
    ⟨fun _ => "h1", fun _ => .error (), fun _ => (500, ""),
     fun _ => (500, ⟨none, none⟩)⟩
    ⟨[⟨0, "h1", sufUrlText, "u", exDt, [], exSeller, "Other"⟩], [], 1⟩
    [0] "u"
    (some ⟨0, "h1", sufUrlText, "u", exDt, [], exSeller, "Other"⟩)
    ⟨[⟨0, "h1", sufUrlText, "u", exDt, [], exSeller, "Other"⟩], [], 1⟩
    ⟨0, 0, 0, 0⟩ (by unfold WF; decide) (by decide)
